import Mathlib

/-
  Verification development for the dual-backend compliance-action
  write/query subsystem of the CYBERSECURITY_PROJECT repository.

  The definitions below are a shallow embedding of:
    - src/backend/src/app.js            (Express handlers, SimulationMode,
                                         connectToBlockchain, startServer)
    - src/blockchain/chaincode/javascript/compliance-contract.js
                                        (ExecuteComplianceAction, QueryAllActions)
    - src/unnamed/part_000              (router: GET /compliance/actions,
                                         GET /compliance/actions/:id)

  Conventions of the embedding:
    - JavaScript objects with a known field universe become Lean structures
      whose absent fields are `Option.none`.
    - `uuidv4()` and `Math.random()` are modelled as fresh values drawn from
      a counter carried in the server state.
    - A backend call that can throw is modelled by a Boolean availability
      flag in the state (`ledgerUp`, `dbUp`); the JavaScript `try/catch`
      structure of each handler is reproduced in the control flow.
    - The `compliance_actions` table is carried as a list of rows kept in
      `created_at`-descending order: every insert stamps the advancing
      clock and is prepended, so the router's `ORDER BY created_at DESC`
      is the identity on this representation.
-/

namespace ComplianceSystem

/-- JavaScript truthiness test used by the handlers on optional string
fields: `!x` holds for an absent field and for the empty string. -/
def isBlank : Option String → Bool
  | none => true
  | some s => s = ""

/-- The JSON body of a create request (`actionData` in app.js).  The field
universe covers every key read by any code path, plus the keys `id` and
`status` that a client may supply and that flow through the object spread
in `SimulationMode.submitTransaction`. -/
structure ActionRequest where
  policyId : Option String := none
  action : Option String := none
  actionTaken : Option String := none
  threatDescription : Option String := none
  confidence : Option ℚ := none
  targetEndpoints : Option (List String) := none
  id : Option String := none
  status : Option String := none
deriving Repr, DecidableEq

/-- A compliance record as produced by either ledger backend.  Fields not
set by a given backend are `none` (they are absent from the JavaScript
object it builds). -/
structure ComplianceRecord where
  id : String
  policyId : Option String := none
  action : Option String := none
  actionTaken : Option String := none
  threatDescription : Option String := none
  confidence : Option ℚ := none
  targetEndpoints : Option (List String) := none
  status : String
  timestamp : Nat
  blockHash : Option String := none
  docType : Option String := none
deriving Repr, DecidableEq

/-- app.js lines 70-82, `SimulationMode.submitTransaction`.  The record is
`{ id: uuidv4(), ...actionData, status: 'EXECUTED', timestamp, blockHash }`:
the spread of `actionData` comes after the generated `id` (so a
client-supplied `id` overrides it), while `status`, `timestamp` and
`blockHash` are written after the spread (so they override any
client-supplied value).  `rnd` stands for the `Math.random()` suffix. -/
def SimulationMode.submitTransaction (fresh rnd : String) (now : Nat)
    (a : ActionRequest) : ComplianceRecord :=
  { id := a.id.getD fresh
    policyId := a.policyId
    action := a.action
    actionTaken := a.actionTaken
    threatDescription := a.threatDescription
    confidence := a.confidence
    targetEndpoints := a.targetEndpoints
    status := "EXECUTED"
    timestamp := now
    blockHash := some ("simulated-" ++ rnd)
    docType := none }

/-- compliance-contract.js lines 88-110, `ExecuteComplianceAction`.  The
chaincode builds the record from an explicit field list: the `id` is the
freshly generated uuid (a client-supplied `id` is ignored), `actionTaken`
is taken from `actionData.action`, and `status` is set to EXECUTED. -/
def ComplianceContract.ExecuteComplianceAction (fresh : String) (now : Nat)
    (a : ActionRequest) : ComplianceRecord :=
  { id := fresh
    timestamp := now
    policyId := a.policyId
    threatDescription := a.threatDescription
    actionTaken := a.action
    status := "EXECUTED"
    confidence := a.confidence
    targetEndpoints := a.targetEndpoints
    action := none
    blockHash := none
    docType := some "complianceAction" }

/-- A row of the `compliance_actions` table as inserted by app.js
lines 122-135 and read back by the router in src/unnamed/part_000. -/
structure DbRow where
  id : String
  policy_id : Option String
  action_taken : Option String
  threat_description : String
  confidence : ℚ
  status : String
  timestamp : Nat
  created_at : Nat
deriving Repr, DecidableEq

/-- JavaScript `x || ''` on an optional string (absent and `''` are falsy,
both yielding `''`). -/
def jsOrEmpty : Option String → String
  | none => ""
  | some s => s

/-- JavaScript `x || 0.0` on an optional number (absent and `0` are falsy,
both yielding `0`). -/
def jsOrZero : Option ℚ → ℚ
  | none => 0
  | some v => v

/-- JavaScript `s || 'PENDING'` on a string (only `''` is falsy). -/
def jsOrPending (s : String) : String :=
  if s = "" then "PENDING" else s

/-- The parameter vector of the INSERT in app.js lines 122-135: the row
mirrored into the Secondary Index for a final compliance record.  Note the
insert reads `complianceRecord.action` for the `action_taken` column. -/
def dbRowOf (r : ComplianceRecord) (now : Nat) : DbRow :=
  { id := r.id
    policy_id := r.policyId
    action_taken := r.action
    threat_description := jsOrEmpty r.threatDescription
    confidence := jsOrZero r.confidence
    status := jsOrPending r.status
    timestamp := now
    created_at := now }

/-- A row of the `policies` table. -/
structure Policy where
  id : String
  standard : String
  control : String
  description : Option String := none
  severity : String
  required_action : String
deriving Repr, DecidableEq

/-- app.js lines 185-189: the fixed default policy set returned by
`GET /api/policies` when the database is unreachable.  This is the only
built-in default data set in the source. -/
def defaultPolicies : List Policy :=
  [ { id := "POL-001", standard := "NIST", control := "Access Control",
      description := none, severity := "HIGH", required_action := "ENABLE_MFA" }
  , { id := "POL-002", standard := "ISO27001", control := "Cryptography",
      description := none, severity := "MEDIUM", required_action := "ENABLE_ENCRYPTION" }
  , { id := "POL-003", standard := "PCI-DSS", control := "Network Security",
      description := none, severity := "CRITICAL", required_action := "BLOCK_RDP_PORT" } ]

/-- The mutable state of one backend process: the module-level flag
`blockchainEnabled`, the reachability of the two external stores, the
simulation store `SimulationMode.actions`, the real ledger world state,
the `compliance_actions` table (newest first), the `policies` table, and
the fresh-value supply and clock. -/
structure ServerState where
  blockchainEnabled : Bool
  ledgerUp : Bool
  dbUp : Bool
  simActions : List ComplianceRecord
  ledgerRecords : List (String × ComplianceRecord)
  dbRows : List DbRow
  policies : List Policy
  counter : Nat
  clock : Nat
deriving Repr, DecidableEq

/-- The next value of the uuid supply. -/
def freshId (st : ServerState) : String :=
  "uuid-" ++ toString st.counter

/-- The next value of the `Math.random()` suffix supply. -/
def freshRnd (st : ServerState) : String :=
  "rand" ++ toString st.counter

/-- Fabric `putState`: last-writer-wins upsert into the world state. -/
def putState (k : String) (v : ComplianceRecord) :
    List (String × ComplianceRecord) → List (String × ComplianceRecord)
  | [] => [(k, v)]
  | (k₁, v₁) :: rest =>
      if k₁ = k then (k, v) :: rest else (k₁, v₁) :: putState k v rest

/-- Outcome of `POST /api/compliance/action` as seen by the caller. -/
inductive PostResult
  | ok (record : ComplianceRecord)
  | badRequest
  | serverError
deriving Repr, DecidableEq

/-- app.js lines 93-149, `POST /api/compliance/action`.
(1) reject when `policyId` or `action` is missing/empty (400, before any
write); (2) submit to the real contract when `blockchainEnabled`, else to
the simulation contract — a throw from the real contract reaches the outer
catch, which answers 500 without touching the database; (3) mirror the
record into the database inside an inner try whose catch swallows the
failure; (4) trigger enforcement (log-only, never throws); (5) respond
with the record. -/
def postComplianceAction (st : ServerState) (req : ActionRequest) :
    PostResult × ServerState :=
  if isBlank req.policyId || isBlank req.action then
    (PostResult.badRequest, st)
  else if st.blockchainEnabled && !st.ledgerUp then
    (PostResult.serverError, st)
  else
    let record :=
      if st.blockchainEnabled then
        ComplianceContract.ExecuteComplianceAction (freshId st) st.clock req
      else
        SimulationMode.submitTransaction (freshId st) (freshRnd st) st.clock req
    let st₁ :=
      if st.blockchainEnabled then
        { st with ledgerRecords := putState record.id record st.ledgerRecords }
      else
        { st with simActions := st.simActions ++ [record] }
    let st₂ :=
      if st₁.dbUp then
        { st₁ with dbRows := dbRowOf record st.clock :: st₁.dbRows }
      else st₁
    (PostResult.ok record, { st₂ with counter := st₂.counter + 1, clock := st₂.clock + 1 })

/-- The record id carried by a successful create response, if any. -/
def postRecordId (st : ServerState) (req : ActionRequest) : Option String :=
  match (postComplianceAction st req).1 with
  | PostResult.ok r => some r.id
  | _ => none

/-- Outcome of `GET /api/compliance/actions` (app.js), tagged with the
source that served it. -/
inductive ListSource
  | ledger (records : List ComplianceRecord)
  | db (rows : List DbRow)
  | failure
deriving Repr, DecidableEq

/-- compliance-contract.js lines 137-154, `QueryAllActions`: full range
scan keeping the entries whose `docType` is `complianceAction`. -/
def QueryAllActions (world : List (String × ComplianceRecord)) :
    List ComplianceRecord :=
  (world.map Prod.snd).filter (fun r => r.docType = some "complianceAction")

/-- app.js lines 151-175, `GET /api/compliance/actions`: ledger tier first
(the simulation `evaluateTransaction` never throws), then the database in
the catch, then a 500 — there is no default data set on this route. -/
def getApiComplianceActions (st : ServerState) : ListSource :=
  if st.blockchainEnabled then
    if st.ledgerUp then ListSource.ledger (QueryAllActions st.ledgerRecords)
    else if st.dbUp then ListSource.db st.dbRows
    else ListSource.failure
  else
    ListSource.ledger st.simActions

/-- app.js lines 177-192, `GET /api/policies`: the database, else the
fixed `defaultPolicies` set.  (The `ORDER BY severity DESC` of the happy
path is not modelled; no claim concerns the order of policies.) -/
def getApiPolicies (st : ServerState) : List Policy :=
  if st.dbUp then st.policies else defaultPolicies

/-- One row of the router's `SELECT ca.*, p.standard, p.control,
p.description AS policy_description FROM compliance_actions ca LEFT JOIN
policies p ON ca.policy_id = p.id`, together with the `p.severity` value
the WHERE clause can test.  A row without a matching policy carries NULLs. -/
structure JoinedRow where
  row : DbRow
  standard : Option String
  control : Option String
  policy_description : Option String
  severity : Option String
deriving Repr, DecidableEq

/-- The LEFT JOIN of one `compliance_actions` row against the `policies`
table (`policies.id` is the primary key, so at most one policy matches). -/
def joinPolicy (ps : List Policy) (r : DbRow) : JoinedRow :=
  match r.policy_id.bind (fun pid => ps.find? (fun p => p.id = pid)) with
  | some p =>
      { row := r, standard := some p.standard, control := some p.control,
        policy_description := p.description, severity := some p.severity }
  | none =>
      { row := r, standard := none, control := none,
        policy_description := none, severity := none }

/-- JavaScript `s.toUpperCase()` on the ASCII parameter strings the
routes receive: character-wise upper-casing.  (Core `String.toUpper` is
extensionally the same map but its implementation does not reduce in the
kernel, so the embedding spells out the character map.) -/
def jsToUpper (s : String) : String :=
  String.mk (s.data.map Char.toUpper)

/-- The query parameters of the router's list route.  `limit`/`offset`
are the `parseInt` results of the corresponding parameters when present. -/
structure ListQuery where
  severity : Option String := none
  status : Option String := none
  limit : Option Nat := none
  offset : Option Nat := none
deriving Repr, DecidableEq

/-- The WHERE clause built in src/unnamed/part_000 lines 156-167: a filter
parameter is active only when truthy (absent or empty string means no
clause), and an active parameter is compared for exact equality after
`toUpperCase()` — `p.severity` for `severity`, `ca.status` for `status`. -/
def matchesFilters (q : ListQuery) (jr : JoinedRow) : Bool :=
  (match q.severity with
   | none => true
   | some s => if s = "" then true else jr.severity = some (jsToUpper s)) &&
  (match q.status with
   | none => true
   | some s => if s = "" then true else jr.row.status = jsToUpper s)

/-- src/unnamed/part_000 lines 143-176, `GET /compliance/actions`: join,
filter, `ORDER BY ca.created_at DESC` (identity on our newest-first row
list), then `LIMIT` (default 100) and `OFFSET` (default 0).  `none` is the
500 answer when the database query throws. -/
def routerListActions (st : ServerState) (q : ListQuery) :
    Option (List JoinedRow) :=
  if st.dbUp then
    some (((((st.dbRows.map (joinPolicy st.policies)).filter
        (matchesFilters q)).drop (q.offset.getD 0)).take (q.limit.getD 100)))
  else none

/-- Outcome of the router's get-by-id route. -/
inductive GetResult
  | found (jr : JoinedRow)
  | notFound
  | failure
deriving Repr, DecidableEq

/-- src/unnamed/part_000 lines 178-197, `GET /compliance/actions/:id`:
the joined row with `ca.id = $1` from the database only — no ledger tier
and no default fallback; an empty result is a 404. -/
def routerGetActionById (st : ServerState) (id : String) : GetResult :=
  if st.dbUp then
    match (st.dbRows.map (joinPolicy st.policies)).find?
        (fun jr => jr.row.id = id) with
    | some jr => GetResult.found jr
    | none => GetResult.notFound
  else GetResult.failure

/-- The configuration facts probed by app.js lines 17-62,
`connectToBlockchain`: the `FABRIC_CONFIG_PATH` variable, the connection
profile file, the admin identity in the wallet, and the success of the
gateway connect / channel / contract handshake (any throw lands in the
catch). -/
structure FabricConfig where
  fabricConfigPathSet : Bool
  connectionProfileExists : Bool
  adminIdentityPresent : Bool
  gatewayReachable : Bool
deriving Repr, DecidableEq

/-- The value `blockchainEnabled` holds after `connectToBlockchain`
returns: true exactly when every probe succeeded; every early return and
the catch leave it false. -/
def connectToBlockchain (cfg : FabricConfig) : Bool :=
  cfg.fabricConfigPathSet && cfg.connectionProfileExists &&
    cfg.adminIdentityPresent && cfg.gatewayReachable

/-- app.js lines 231-243, `startServer`: `connectToBlockchain` runs once
before the listener starts; the state the request handlers then see. -/
def initState (cfg : FabricConfig) (ledgerUp dbUp : Bool)
    (ps : List Policy) : ServerState :=
  { blockchainEnabled := connectToBlockchain cfg
    ledgerUp := ledgerUp
    dbUp := dbUp
    simActions := []
    ledgerRecords := []
    dbRows := []
    policies := ps
    counter := 0
    clock := 0 }

/-- One inbound API request over the process lifetime. -/
inductive ApiRequest
  | createAction (req : ActionRequest)
  | listActions
  | routerList (q : ListQuery)
  | routerGet (id : String)
  | listPolicies
  | health
deriving Repr, DecidableEq

/-- The state transition of one request: only the create route mutates
server state; every read route leaves it unchanged. -/
def handleRequest (st : ServerState) (r : ApiRequest) : ServerState :=
  match r with
  | ApiRequest.createAction req => (postComplianceAction st req).2
  | _ => st

/-- The server state after a sequence of requests. -/
def runTrace (st : ServerState) (rs : List ApiRequest) : ServerState :=
  rs.foldl handleRequest st

/-- The record the simulation backend produces for the current state. -/
def simRec (st : ServerState) (req : ActionRequest) : ComplianceRecord :=
  SimulationMode.submitTransaction (freshId st) (freshRnd st) st.clock req

/-- The record the chaincode produces for the current state. -/
def chainRec (st : ServerState) (req : ActionRequest) : ComplianceRecord :=
  ComplianceContract.ExecuteComplianceAction (freshId st) st.clock req

/- Concrete fixtures used by witnesses and counterexamples. -/

/-- The detection confidence 0.92 of the end-to-end scenario, as the
normalised rational 23/25. -/
def conf92 : ℚ := ⟨23, 25, by norm_num, by norm_num⟩

/-- A well-formed create request. -/
def reqValid : ActionRequest :=
  { policyId := some "POL-003"
    action := some "BLOCK_RDP_PORT"
    confidence := some conf92 }

/-- Real-backend mode with the ledger unreachable and the database up. -/
def stRealDown : ServerState :=
  { blockchainEnabled := true, ledgerUp := false, dbUp := true,
    simActions := [], ledgerRecords := [], dbRows := [],
    policies := defaultPolicies, counter := 0, clock := 0 }

/-- Real-backend mode with both the ledger and the database unreachable. -/
def stBothDown : ServerState :=
  { blockchainEnabled := true, ledgerUp := false, dbUp := false,
    simActions := [], ledgerRecords := [], dbRows := [],
    policies := defaultPolicies, counter := 0, clock := 0 }

/-- Simulation mode with the database up: the local-backend healthy state. -/
def stSim : ServerState :=
  { blockchainEnabled := false, ledgerUp := false, dbUp := true,
    simActions := [], ledgerRecords := [], dbRows := [],
    policies := defaultPolicies, counter := 0, clock := 0 }

/-- Simulation mode with the database down. -/
def stSimDbDown : ServerState :=
  { blockchainEnabled := false, ledgerUp := false, dbUp := false,
    simActions := [], ledgerRecords := [], dbRows := [],
    policies := defaultPolicies, counter := 0, clock := 0 }

/-- The out-of-range confidence 1.5 of the clamping scenario, as the
normalised rational 3/2. -/
def conf15 : ℚ := ⟨3, 2, by norm_num, by norm_num⟩

/-- A create request carrying the out-of-range confidence 1.5. -/
def reqConf15 : ActionRequest :=
  { policyId := some "POL-001"
    action := some "ENABLE_MFA"
    confidence := some conf15 }

/-- A stock `compliance_actions` row used to populate bulk tables. -/
def bulkRow : DbRow :=
  { id := "row", policy_id := none, action_taken := none,
    threat_description := "", confidence := 0, status := "EXECUTED",
    timestamp := 0, created_at := 0 }

/-- Simulation mode with a database of `n` identical rows. -/
def stBulkRows (n : Nat) : ServerState :=
  { blockchainEnabled := false, ledgerUp := false, dbUp := true,
    simActions := [], ledgerRecords := [], dbRows := List.replicate n bulkRow,
    policies := [], counter := 0, clock := 0 }

/-- A Fabric configuration whose gateway handshake fails. -/
def cfgBad : FabricConfig :=
  { fabricConfigPathSet := true, connectionProfileExists := true,
    adminIdentityPresent := true, gatewayReachable := false }

/- Evaluation lemmas for the create handler. -/

/-- Evaluation of the create handler in simulation mode on valid input. -/
theorem post_sim_eval (st : ServerState) (req : ActionRequest)
    (hpol : isBlank req.policyId = false) (hact : isBlank req.action = false)
    (hsim : st.blockchainEnabled = false) :
    postComplianceAction st req =
      (PostResult.ok (simRec st req),
       { st with
          simActions := st.simActions ++ [simRec st req]
          dbRows := if st.dbUp then
              dbRowOf (simRec st req) st.clock :: st.dbRows
            else st.dbRows
          counter := st.counter + 1
          clock := st.clock + 1 }) := by
  unfold postComplianceAction simRec
  simp only [hpol, hact, hsim, Bool.or_self, Bool.false_and, Bool.false_eq_true,
    if_false, if_neg, Bool.not_false]
  split <;> rfl

/-- Evaluation of the create handler in real-backend mode with the ledger
reachable, on valid input. -/
theorem post_real_eval (st : ServerState) (req : ActionRequest)
    (hpol : isBlank req.policyId = false) (hact : isBlank req.action = false)
    (hbc : st.blockchainEnabled = true) (hup : st.ledgerUp = true) :
    postComplianceAction st req =
      (PostResult.ok (chainRec st req),
       { st with
          ledgerRecords := putState (chainRec st req).id (chainRec st req) st.ledgerRecords
          dbRows := if st.dbUp then
              dbRowOf (chainRec st req) st.clock :: st.dbRows
            else st.dbRows
          counter := st.counter + 1
          clock := st.clock + 1 }) := by
  unfold postComplianceAction chainRec
  simp only [hpol, hact, hbc, hup, Bool.or_self, Bool.true_and, Bool.not_true,
    Bool.false_eq_true, if_false, if_true]
  split <;> rfl

/- Helper lemmas. -/

/-- A `putState` upsert leaves the written pair in the world state. -/
theorem putState_mem (k : String) (v : ComplianceRecord)
    (l : List (String × ComplianceRecord)) : (k, v) ∈ putState k v l := by
  induction l with
  | nil => simp [putState]
  | cons p rest ih =>
      obtain ⟨k₁, v₁⟩ := p
      by_cases h : k₁ = k <;> simp [putState, h, ih]

/-- The LEFT JOIN keeps the `compliance_actions` row unchanged. -/
theorem joinPolicy_row (ps : List Policy) (r : DbRow) :
    (joinPolicy ps r).row = r := by
  unfold joinPolicy
  split <;> rfl

/-- `toUpperCase` fixes the already-upper-case status literal. -/
theorem jsToUpper_EXECUTED : jsToUpper "EXECUTED" = "EXECUTED" := by decide

/- Claim theorems. -/

/-- Claim C7: a create request whose `policyId` or action name is missing
or empty is rejected with a validation error (HTTP 400) before any ledger
or index write — the handler returns immediately with the state unchanged.
(In the request JSON the action name is the `action` field; the spec calls
the stored field `actionTaken`.) -/
theorem C7_validation_before_write (st : ServerState) (req : ActionRequest)
    (h : isBlank req.policyId = true ∨ isBlank req.action = true) :
    postComplianceAction st req = (PostResult.badRequest, st) := by
  unfold postComplianceAction
  rcases h with h | h <;> simp [h]

/-- Witness for C7 at a concrete request with no `policyId`. -/
theorem C7_witness :
    postComplianceAction stSim { action := some "BLOCK_RDP_PORT" } =
      (PostResult.badRequest, stSim) :=
  C7_validation_before_write stSim { action := some "BLOCK_RDP_PORT" }
    (Or.inl (by decide))

/-- Counterexample to claim C1: with the real backend selected and the
ledger unreachable, a valid create request is answered with a 500 error —
no `ComplianceAction` with status FAILED is returned (the response carries
no record at all) and nothing is written to the Secondary Index, so
nothing can later surface in a list call. -/
theorem C1_counterexample :
    postComplianceAction stRealDown reqValid = (PostResult.serverError, stRealDown) ∧
    postRecordId stRealDown reqValid = none ∧
    (postComplianceAction stRealDown reqValid).2.dbRows = [] := by
  refine ⟨by decide, by decide, by decide⟩

/-- Claim C1 as amended: when the selected ledger backend throws on the
write, the create handler's outer catch answers 500 with the server state
unchanged — the request fails outright; no FAILED record is built, stored,
or returned. -/
theorem C1_amended_ledger_fault_returns_error (st : ServerState) (req : ActionRequest)
    (hpol : isBlank req.policyId = false) (hact : isBlank req.action = false)
    (hbc : st.blockchainEnabled = true) (hdown : st.ledgerUp = false) :
    postComplianceAction st req = (PostResult.serverError, st) := by
  unfold postComplianceAction
  simp [hpol, hact, hbc, hdown]

/-- Witness for the amended C1 at the concrete unreachable-ledger state. -/
theorem C1_witness :
    postComplianceAction stRealDown reqValid = (PostResult.serverError, stRealDown) :=
  C1_amended_ledger_fault_returns_error stRealDown reqValid
    (by decide) (by decide) rfl rfl

/-- Claim C10: every record the simulation backend writes has status
EXECUTED — the assignment after the object spread overwrites any status in
the request payload, so no PENDING or FAILED record can be produced — and
its `blockHash` is exactly the string "simulated-" followed by the random
suffix. -/
theorem C10_simulation_status_pinned (fresh rnd : String) (now : Nat)
    (req : ActionRequest) :
    (SimulationMode.submitTransaction fresh rnd now req).status = "EXECUTED" ∧
    (SimulationMode.submitTransaction fresh rnd now req).blockHash =
      some ("simulated-" ++ rnd) ∧
    (SimulationMode.submitTransaction fresh rnd now req).status ≠ "PENDING" ∧
    (SimulationMode.submitTransaction fresh rnd now req).status ≠ "FAILED" :=
  ⟨rfl, rfl, by simp [SimulationMode.submitTransaction],
    by simp [SimulationMode.submitTransaction]⟩

/-- Counterexample to claim C5: in simulation mode the object spread
places the request body after the generated uuid, so a client-supplied
`id` field overrides the generated one; submitting twice with the same
forged id yields two stored records with identical ids. -/
theorem C5_counterexample :
    postRecordId stSim
        { policyId := some "POL-001", action := some "A",
          id := some "attacker-chosen-id" } = some "attacker-chosen-id" ∧
    freshId stSim = "uuid-0" ∧
    "attacker-chosen-id" ≠ "uuid-0" ∧
    ((postComplianceAction
        (postComplianceAction stSim
          { policyId := some "POL-001", action := some "A",
            id := some "attacker-chosen-id" }).2
        { policyId := some "POL-001", action := some "A",
          id := some "attacker-chosen-id" }).2.simActions.map
      ComplianceRecord.id) = ["attacker-chosen-id", "attacker-chosen-id"] := by
  refine ⟨by decide, by decide, by decide, by decide⟩

/-- Claim C5 as amended: the chaincode path generates the record id itself
and ignores any client-supplied id, but the simulation path uses the
generated uuid only as a default that a client-supplied `id` field
overrides — so in simulation mode ids are client-controlled and their
uniqueness is not guaranteed. -/
theorem C5_amended_id_generation (fresh rnd : String) (now : Nat)
    (req : ActionRequest) :
    (ComplianceContract.ExecuteComplianceAction fresh now req).id = fresh ∧
    (SimulationMode.submitTransaction fresh rnd now req).id = req.id.getD fresh :=
  ⟨rfl, rfl⟩

/-- Claim C6: when the ledger write succeeds and the Secondary Index
mirror write fails, the inner catch swallows the failure: the call still
answers with the final record, the record sits in the ledger state
(simulation store or chaincode world state, per mode), and the database
is untouched — the mirror failure never undoes the ledger write. -/
theorem C6_mirror_failure_never_undoes_ledger (st : ServerState)
    (req : ActionRequest)
    (hpol : isBlank req.policyId = false) (hact : isBlank req.action = false)
    (hdb : st.dbUp = false) :
    (st.blockchainEnabled = false →
      ∃ rec st₂, postComplianceAction st req = (PostResult.ok rec, st₂) ∧
        rec ∈ st₂.simActions ∧ st₂.dbRows = st.dbRows) ∧
    (st.blockchainEnabled = true → st.ledgerUp = true →
      ∃ rec st₂, postComplianceAction st req = (PostResult.ok rec, st₂) ∧
        (rec.id, rec) ∈ st₂.ledgerRecords ∧ st₂.dbRows = st.dbRows) := by
  constructor
  · intro hsim
    refine ⟨simRec st req, _, post_sim_eval st req hpol hact hsim, ?_, ?_⟩
    · simp
    · simp [hdb]
  · intro hbc hup
    refine ⟨chainRec st req, _, post_real_eval st req hpol hact hbc hup, ?_, ?_⟩
    · simp [putState_mem]
    · simp [hdb]

/-- Witness for C6: simulation mode with the database down — the create
call still answers with the record and the record is in the ledger tier. -/
theorem C6_witness :
    ∃ rec st₂, postComplianceAction stSimDbDown reqValid = (PostResult.ok rec, st₂) ∧
      rec ∈ st₂.simActions ∧ st₂.dbRows = stSimDbDown.dbRows :=
  (C6_mirror_failure_never_undoes_ledger stSimDbDown reqValid
    (by decide) (by decide) rfl).1 rfl

/-- Counterexample to claim C4: the create request with confidence 1.5 is
accepted and the value 3/2 is stored verbatim in the Secondary Index —
it is neither rejected nor clamped into [0,1]. -/
theorem C4_counterexample :
    (postComplianceAction stSim reqConf15).2.dbRows.map DbRow.confidence =
      [(3 : ℚ)/2] ∧
    ¬ ((3 : ℚ)/2 ≤ 1) ∧
    postRecordId stSim reqConf15 = some "uuid-0" := by
  refine ⟨?_, by norm_num, by decide⟩
  have h : (postComplianceAction stSim reqConf15).2.dbRows.map DbRow.confidence
      = [conf15] := by decide
  rw [h]
  simp only [conf15, Rat.mk'_eq_divInt, Rat.divInt_eq_div]
  norm_num

/-- Claim C4 as amended: the record keeps the request's confidence
verbatim in both backends; only an absent (or zero) confidence is stored
as 0 in the Secondary Index (`confidence || 0.0`) — out-of-range values
pass through unclamped and unrejected. -/
theorem C4_amended_confidence_stored_verbatim (st : ServerState)
    (req : ActionRequest)
    (hpol : isBlank req.policyId = false) (hact : isBlank req.action = false)
    (hsim : st.blockchainEnabled = false) (hdb : st.dbUp = true) :
    ∃ rec st₂, postComplianceAction st req = (PostResult.ok rec, st₂) ∧
      rec.confidence = req.confidence ∧
      st₂.dbRows.map DbRow.confidence =
        jsOrZero req.confidence :: st.dbRows.map DbRow.confidence ∧
      (chainRec st req).confidence = req.confidence := by
  refine ⟨simRec st req, _, post_sim_eval st req hpol hact hsim, rfl, ?_, rfl⟩
  simp [hdb, dbRowOf, simRec, SimulationMode.submitTransaction]

/-- Witness for the amended C4 at the concrete confidence-1.5 request. -/
theorem C4_witness :
    ∃ rec st₂, postComplianceAction stSim reqConf15 = (PostResult.ok rec, st₂) ∧
      rec.confidence = reqConf15.confidence ∧
      st₂.dbRows.map DbRow.confidence =
        jsOrZero reqConf15.confidence :: stSim.dbRows.map DbRow.confidence ∧
      (chainRec stSim reqConf15).confidence = reqConf15.confidence :=
  C4_amended_confidence_stored_verbatim stSim reqConf15 (by decide) (by decide) rfl rfl

/-- Claim C3: in simulation mode, every valid create request yields a
response record with status EXECUTED and a non-empty synthetic
`ledgerProof` (the `blockHash` "simulated-" marker), the returned id is
immediately retrievable through the get-by-id route from the Secondary
Index backend, and a list filtered by status EXECUTED includes the
mirrored record. -/
theorem C3_sim_create_roundtrip (st : ServerState) (req : ActionRequest)
    (hpol : isBlank req.policyId = false) (hact : isBlank req.action = false)
    (hsim : st.blockchainEnabled = false) (hdb : st.dbUp = true) :
    ∃ rec st₂, postComplianceAction st req = (PostResult.ok rec, st₂) ∧
      rec.status = "EXECUTED" ∧
      rec.blockHash = some ("simulated-" ++ freshRnd st) ∧
      routerGetActionById st₂ rec.id =
        GetResult.found (joinPolicy st.policies (dbRowOf rec st.clock)) ∧
      (∃ l, routerListActions st₂ { status := some "EXECUTED" } = some l ∧
        joinPolicy st.policies (dbRowOf rec st.clock) ∈ l) := by
  refine ⟨simRec st req, _, post_sim_eval st req hpol hact hsim, rfl, rfl, ?_, ?_⟩
  · have hrow : (joinPolicy st.policies (dbRowOf (simRec st req) st.clock)).row.id
        = (simRec st req).id := by
      rw [joinPolicy_row]; rfl
    simp [routerGetActionById, hdb, List.find?_cons_of_pos, hrow]
  · have hpred : matchesFilters { status := some "EXECUTED" }
        (joinPolicy st.policies (dbRowOf (simRec st req) st.clock)) = true := by
      simp [matchesFilters, joinPolicy_row, dbRowOf, jsOrPending, simRec,
        SimulationMode.submitTransaction, jsToUpper_EXECUTED]
    refine ⟨joinPolicy st.policies (dbRowOf (simRec st req) st.clock) ::
        (((st.dbRows.map (joinPolicy st.policies)).filter
          (matchesFilters { status := some "EXECUTED" })).take 99),
      ?_, List.mem_cons_self _ _⟩
    simp only [routerListActions, hdb, if_true, List.map_cons, List.drop_zero,
      Option.getD_none]
    rw [List.filter_cons_of_pos hpred]
    rw [show (100 : Nat) = 99 + 1 from rfl, List.take_succ_cons]

/-- Witness for C3 at the end-to-end scenario request in the healthy
simulation-mode state. -/
theorem C3_witness :
    ∃ rec st₂, postComplianceAction stSim reqValid = (PostResult.ok rec, st₂) ∧
      rec.status = "EXECUTED" ∧
      rec.blockHash = some ("simulated-" ++ freshRnd stSim) ∧
      routerGetActionById st₂ rec.id =
        GetResult.found (joinPolicy stSim.policies (dbRowOf rec stSim.clock)) ∧
      (∃ l, routerListActions st₂ { status := some "EXECUTED" } = some l ∧
        joinPolicy stSim.policies (dbRowOf rec stSim.clock) ∈ l) :=
  C3_sim_create_roundtrip stSim reqValid (by decide) (by decide) rfl rfl

/-- Counterexample to claim C2: with the real ledger selected but
unreachable and the Secondary Index also unreachable, the actions list
route answers with an error (HTTP 500) — no fixed built-in default set is
returned for the actions list; the only default data set in the source
belongs to the policies route. -/
theorem C2_counterexample :
    getApiComplianceActions stBothDown = ListSource.failure ∧
    getApiPolicies stBothDown = defaultPolicies ∧
    stBothDown.blockchainEnabled = true ∧
    stBothDown.ledgerUp = false ∧
    stBothDown.dbUp = false := by
  refine ⟨by decide, by decide, rfl, rfl, rfl⟩

/-- Claim C2 as amended: the actions list tries the ledger tier first
(the simulation store when the local backend is pinned), then the
Secondary Index, and answers with an error when both fail — the fixed
default set exists only on the policies route.  The get-by-id route
consults only the Secondary Index and reports NotFound when no row
carries the id. -/
theorem C2_amended_fallback_chain (st : ServerState) (id : String) :
    (st.blockchainEnabled = true → st.ledgerUp = true →
      getApiComplianceActions st = ListSource.ledger (QueryAllActions st.ledgerRecords)) ∧
    (st.blockchainEnabled = false →
      getApiComplianceActions st = ListSource.ledger st.simActions) ∧
    (st.blockchainEnabled = true → st.ledgerUp = false → st.dbUp = true →
      getApiComplianceActions st = ListSource.db st.dbRows) ∧
    (st.blockchainEnabled = true → st.ledgerUp = false → st.dbUp = false →
      getApiComplianceActions st = ListSource.failure) ∧
    (st.dbUp = false → getApiPolicies st = defaultPolicies) ∧
    (st.dbUp = true → (∀ r ∈ st.dbRows, r.id ≠ id) →
      routerGetActionById st id = GetResult.notFound) := by
  refine ⟨?_, ?_, ?_, ?_, ?_, ?_⟩
  · intro h₁ h₂; simp [getApiComplianceActions, h₁, h₂]
  · intro h₁; simp [getApiComplianceActions, h₁]
  · intro h₁ h₂ h₃; simp [getApiComplianceActions, h₁, h₂, h₃]
  · intro h₁ h₂ h₃; simp [getApiComplianceActions, h₁, h₂, h₃]
  · intro h₁; simp [getApiPolicies, h₁]
  · intro h₁ h₂
    have hfind : (st.dbRows.map (joinPolicy st.policies)).find?
        (fun jr => jr.row.id = id) = none := by
      rw [List.find?_eq_none]
      intro jr hjr
      obtain ⟨r, hr, rfl⟩ := List.mem_map.mp hjr
      simp [joinPolicy_row, h₂ r hr]
    simp [routerGetActionById, h₁, hfind]

/-- Witness for the amended C2: the concrete both-stores-down state and a
concrete absent id in a healthy simulation-mode state. -/
theorem C2_witness :
    getApiComplianceActions stBothDown = ListSource.failure ∧
    routerGetActionById stSim "no-such-id" = GetResult.notFound :=
  ⟨((C2_amended_fallback_chain stBothDown "no-such-id").2.2.2.1) rfl rfl rfl,
    ((C2_amended_fallback_chain stSim "no-such-id").2.2.2.2.2) rfl (by decide)⟩

/-- Counterexample to claim C8: the router passes the requested limit to
the query verbatim — asking for 101 rows over a 101-row table returns 101
rows, exceeding the only configured limit value in the source (the
default 100): there is no configured maximum capping the response. -/
theorem C8_counterexample :
    ((routerListActions (stBulkRows 101) { limit := some 101 }).getD []).length = 101 ∧
    100 < 101 :=
  ⟨by decide, by decide⟩

/-- Claim C8 as amended: rows served from the Secondary Index match the
active status/severity filters exactly after upper-casing, and the page
is bounded by the requested `limit` (default 100) after `offset` (default
0) — but the requested limit is not capped by any configured maximum, so
the response size is unbounded over all requests. -/
theorem C8_amended_filters_paginated_uncapped (st : ServerState) (q : ListQuery) :
    (∀ l, routerListActions st q = some l →
      (∀ jr ∈ l, matchesFilters q jr = true) ∧
      (∀ jr ∈ l, ∀ s, q.status = some s → s ≠ "" → jr.row.status = jsToUpper s) ∧
      (∀ jr ∈ l, ∀ s, q.severity = some s → s ≠ "" →
        jr.severity = some (jsToUpper s)) ∧
      l.length ≤ q.limit.getD 100) ∧
    (∀ n : Nat, ∃ l, routerListActions (stBulkRows n) { limit := some n } = some l ∧
      l.length = n) := by
  constructor
  · intro l hl
    unfold routerListActions at hl
    split at hl
    · have hl' := Option.some.inj hl
      subst hl'
      have hmem : ∀ jr ∈ (((st.dbRows.map (joinPolicy st.policies)).filter
          (matchesFilters q)).drop (q.offset.getD 0)).take (q.limit.getD 100),
          matchesFilters q jr = true := by
        intro jr hjr
        have h₁ := List.take_subset _ _ hjr
        have h₂ := List.drop_subset _ _ h₁
        exact (List.mem_filter.mp h₂).2
      refine ⟨hmem, ?_, ?_, List.length_take_le _ _⟩
      · intro jr hjr s hs hne
        have h := hmem jr hjr
        simp only [matchesFilters, hs, Bool.and_eq_true, if_neg hne,
          decide_eq_true_eq] at h
        exact h.2
      · intro jr hjr s hs hne
        have h := hmem jr hjr
        simp only [matchesFilters, hs, Bool.and_eq_true, if_neg hne,
          decide_eq_true_eq] at h
        exact h.1
    · exact absurd hl (by simp)
  · intro n
    refine ⟨_, rfl, ?_⟩
    simp [routerListActions, stBulkRows, matchesFilters,
      List.filter_eq_self.mpr, List.length_take, List.length_map,
      List.length_replicate]

/-- Witness for the amended C8: the bound at a concrete query and the
unbounded-response family evaluated at 101. -/
theorem C8_witness :
    (∃ l, routerListActions (stBulkRows 3) { status := some "EXECUTED" } = some l ∧
      l.length ≤ 100) ∧
    (∃ l, routerListActions (stBulkRows 101) { limit := some 101 } = some l ∧
      l.length = 101) := by
  constructor
  · refine ⟨_, rfl, ?_⟩
    exact ((C8_amended_filters_paginated_uncapped (stBulkRows 3)
      { status := some "EXECUTED" }).1 _ rfl).2.2.2
  · exact (C8_amended_filters_paginated_uncapped (stBulkRows 0)
      { status := none }).2 101

/-- The create handler never changes the active-backend flag. -/
theorem post_blockchainEnabled (st : ServerState) (req : ActionRequest) :
    (postComplianceAction st req).2.blockchainEnabled = st.blockchainEnabled := by
  unfold postComplianceAction
  split_ifs with h₁ h₂ h₃
  · rfl
  · rfl
  · dsimp only
    split <;> rfl
  · dsimp only
    split <;> rfl

/-- In simulation mode the create handler never touches the real ledger
world state. -/
theorem post_ledgerRecords_sim (st : ServerState) (req : ActionRequest)
    (h : st.blockchainEnabled = false) :
    (postComplianceAction st req).2.ledgerRecords = st.ledgerRecords := by
  unfold postComplianceAction
  split_ifs with h₁ h₂ h₃
  · rfl
  · rfl
  · rw [h] at h₃; cases h₃
  · dsimp only
    split <;> rfl

/-- No request handler changes the active-backend flag. -/
theorem handleRequest_blockchainEnabled (st : ServerState) (r : ApiRequest) :
    (handleRequest st r).blockchainEnabled = st.blockchainEnabled := by
  cases r <;> simp [handleRequest, post_blockchainEnabled]

/-- With the local backend pinned, no request handler touches the real
ledger world state. -/
theorem handleRequest_ledgerRecords (st : ServerState) (r : ApiRequest)
    (h : st.blockchainEnabled = false) :
    (handleRequest st r).ledgerRecords = st.ledgerRecords := by
  cases r <;> simp [handleRequest, post_ledgerRecords_sim, h]

/-- The active-backend flag is invariant along any request trace. -/
theorem runTrace_blockchainEnabled (st : ServerState) (rs : List ApiRequest) :
    (runTrace st rs).blockchainEnabled = st.blockchainEnabled := by
  induction rs generalizing st with
  | nil => rfl
  | cons r rs ih =>
      rw [runTrace, List.foldl_cons]
      exact (ih (handleRequest st r)).trans (handleRequest_blockchainEnabled st r)

/-- With the local backend pinned, the real ledger world state is
invariant along any request trace. -/
theorem runTrace_ledgerRecords (st : ServerState) (rs : List ApiRequest)
    (h : st.blockchainEnabled = false) :
    (runTrace st rs).ledgerRecords = st.ledgerRecords := by
  induction rs generalizing st with
  | nil => rfl
  | cons r rs ih =>
      rw [runTrace, List.foldl_cons]
      have h₁ : (handleRequest st r).blockchainEnabled = false :=
        (handleRequest_blockchainEnabled st r).trans h
      exact (ih (handleRequest st r) h₁).trans (handleRequest_ledgerRecords st r h)

/-- Claim C9: the choice between the real and the local ledger backend is
made once by `connectToBlockchain` at process start, and the flag holds
that value after any sequence of requests; in particular, when the
startup handshake fails, the real ledger is never written over the whole
process lifetime and every list read is served from the local backend. -/
theorem C9_backend_pinned_at_startup (cfg : FabricConfig) (lUp dUp : Bool)
    (ps : List Policy) (rs : List ApiRequest) :
    (runTrace (initState cfg lUp dUp ps) rs).blockchainEnabled = connectToBlockchain cfg ∧
    (connectToBlockchain cfg = false →
      (runTrace (initState cfg lUp dUp ps) rs).ledgerRecords = [] ∧
      getApiComplianceActions (runTrace (initState cfg lUp dUp ps) rs) =
        ListSource.ledger (runTrace (initState cfg lUp dUp ps) rs).simActions) := by
  have hflag := runTrace_blockchainEnabled (initState cfg lUp dUp ps) rs
  refine ⟨hflag, ?_⟩
  intro hc
  have h₀ : (initState cfg lUp dUp ps).blockchainEnabled = false := hc
  refine ⟨runTrace_ledgerRecords _ rs h₀, ?_⟩
  simp [getApiComplianceActions, hflag.trans hc]

/-- Witness for C9: a failed gateway handshake at startup followed by a
create request — the flag stays false and the real ledger stays empty. -/
theorem C9_witness :
    (runTrace (initState cfgBad true true defaultPolicies)
        [ApiRequest.createAction reqValid]).blockchainEnabled =
      connectToBlockchain cfgBad ∧
    (runTrace (initState cfgBad true true defaultPolicies)
        [ApiRequest.createAction reqValid]).ledgerRecords = [] :=
  ⟨(C9_backend_pinned_at_startup cfgBad true true defaultPolicies
      [ApiRequest.createAction reqValid]).1,
   ((C9_backend_pinned_at_startup cfgBad true true defaultPolicies
      [ApiRequest.createAction reqValid]).2 (by decide)).1⟩

end ComplianceSystem
